import Mathlib

/-!
Verification of the room-heights compliance checker
(`src/tools/checker_room_heights.py`, function `check_room_heights`).

The Python function is shallowly embedded below.  Property values carried by
a space's property sets are modelled by the inductive `Value` (numbers are
modelled as integers, in millimetres; Python treats `bool` as a numeric type
for `isinstance(v, (int, float))`, which the embedding reflects).  Python's
`str(dict)` serialization of a property group — used by the checker for its
substring heuristics — is modelled by `reprProps`.  The one fallible spot of
the original (comparing a discovered height against a non-numeric threshold
override raises `TypeError`) is modelled with `Except`.
-/

namespace RoomHeights

/-- A Python value stored in a property set: number (int, in mm), bool, or
string.  `bool` is kept separate because Python's `isinstance(v, (int, float))`
accepts booleans (`bool` subclasses `int`). -/
inductive Value where
  | num  (i : Int)
  | bool (b : Bool)
  | str  (s : String)
deriving DecidableEq

/-- One property group: ordered key/value pairs (Python dict in insertion
order). -/
abbrev Props := List (String × Value)

/-- All property sets of a space: ordered (name, group) pairs, as returned by
the property-set resolver (`ifcopenshell.util.element.get_psets`). -/
abbrev Psets := List (String × Props)

/-- An `IfcSpace` entity, as read through `getattr`: optional `GlobalId`,
local numeric handle (`space.id()`), optional `Name`, optional `LongName`,
and its property sets. -/
structure Space where
  globalId : Option String
  localId  : Nat
  name     : Option String
  longName : Option String
  psets    : Psets
deriving DecidableEq

/-- An `IfcBuildingStorey`: local handle plus optional `Elevation`. -/
structure Storey where
  localId   : Nat
  elevation : Option Int
deriving DecidableEq

/-- The model handle: `model.by_type("IfcSpace")` and
`model.by_type("IfcBuildingStorey")` in selection order. -/
structure Model where
  spaces  : List Space
  storeys : List Storey
deriving DecidableEq

/-- The `**kwargs` options bag: each recognized threshold key is either
absent or holds an arbitrary `Value` (the code performs no validation). -/
structure Options where
  residential_min_height : Option Value := none
  commercial_min_height  : Option Value := none
  sloped_min_height      : Option Value := none
deriving DecidableEq

/-- One result dictionary of the checker's output schema. -/
structure Rec where
  element_id        : Option String
  element_type      : String
  element_name      : String
  element_name_long : Option String
  check_status      : String
  actual_value      : String
  required_value    : String
  comment           : Option String
  log               : Option String
deriving DecidableEq

/-! ### Python string helpers: `.lower()` and the `in` substring test -/

/-- `str.lower()` character-wise (ASCII suffices for the checker's needles). -/
def lowerChars (l : List Char) : List Char := l.map Char.toLower

/-- `hay` starts with `needle` (first argument is the haystack). -/
def listStartsWith : List Char → List Char → Bool
  | _, [] => true
  | [], _ :: _ => false
  | a :: as, b :: bs => (a == b) && listStartsWith as bs

/-- `needle in hay` for char lists: some suffix of `hay` starts with
`needle`. -/
def listContainsSub (needle : List Char) : List Char → Bool
  | [] => needle.isEmpty
  | c :: cs => listStartsWith (c :: cs) needle || listContainsSub needle cs

/-- Python `needle in hay` on strings. -/
def containsSub (hay needle : String) : Bool :=
  listContainsSub needle.data hay.data

/-- Python `s.lower()`. -/
def lowerStr (s : String) : String := ⟨lowerChars s.data⟩

/-! ### Python `str()` / `repr()` of property values and groups -/

/-- Python `repr(v)` for a stored value (as it appears inside `str(dict)`):
ints bare, bools `True`/`False`, strings single-quoted. -/
def reprValue : Value → String
  | .num i  => toString i
  | .bool b => if b then "True" else "False"
  | .str s  => "\x27" ++ s ++ "\x27"

/-- One `'key': value` entry of `str(dict)`. -/
def reprEntry (e : String × Value) : String :=
  "\x27" ++ e.1 ++ "\x27: " ++ reprValue e.2

/-- The comma-separated entries of `str(dict)`. -/
def reprEntries : Props → String
  | [] => ""
  | [e] => reprEntry e
  | e :: f :: rest => reprEntry e ++ ", " ++ reprEntries (f :: rest)

/-- Python `str(properties)` for a property group. -/
def reprProps (props : Props) : String :=
  "\x7b" ++ reprEntries props ++ "\x7d"

/-- Python `str(v)` (f-string interpolation): like `repr` but strings are
unquoted. -/
def strValue : Value → String
  | .num i  => toString i
  | .bool b => if b then "True" else "False"
  | .str s  => s

/-! ### The checker's helpers -/

/-- `isinstance(v, (int, float))` — booleans count as numeric in Python. -/
def isNumericValue : Value → Bool
  | .num _  => true
  | .bool _ => true
  | .str _  => false

/-- The numeric reading of a numeric value (`True` is 1, `False` is 0). -/
def valueToInt : Value → Int
  | .num i  => i
  | .bool b => if b then 1 else 0
  | .str _  => 0

/-- Python `height_value >= required` where `height_value` is numeric and
`required` came unvalidated from `kwargs`: comparing against a string raises
`TypeError`. -/
def pyGeInt (a : Int) : Value → Except String Bool
  | .num i  => .ok (decide (i ≤ a))
  | .bool b => .ok (decide ((if b then (1 : Int) else 0) ≤ a))
  | .str _  => .error "TypeError: unordered types int and str"

/-- `kwargs.get(key, default)`: the supplied value verbatim, else the
(numeric) default. -/
def getOpt (v : Option Value) (dflt : Int) : Value :=
  match v with
  | some x => x
  | none => .num dflt

/-- `space_name = getattr(space, "Name", None) or f"Space #{space.id()}"`:
the name when present and non-empty, else the generated label. -/
def spaceName (sp : Space) : String :=
  match sp.name with
  | some n => if n = "" then "Space #" ++ toString sp.localId else n
  | none => "Space #" ++ toString sp.localId

/-- Lines 82–87 of the source, restricted to one group: the first key
containing `"height"` (case-insensitively) whose value is numeric, if any
(the inner `for`/`break`). -/
def findHeightInGroup : Props → Option Int
  | [] => none
  | (k, v) :: rest =>
    if containsSub (lowerStr k) "height" && isNumericValue v then
      some (valueToInt v)
    else findHeightInGroup rest

/-- One iteration of the outer pset loop: the group is scanned only when its
`str()` serialization contains `"height"` (case-insensitively). -/
def groupHeight (g : String × Props) : Option Int :=
  if containsSub (lowerStr (reprProps g.2)) "height" then
    findHeightInGroup g.2
  else none

/-- The full pset scan (source lines 80–87).  The outer loop has no `break`:
a later group's numeric height overwrites an earlier one, while a group that
yields no numeric height leaves the accumulator unchanged. -/
def discoverHeight (psets : Psets) : Option Int :=
  psets.foldl
    (fun acc g =>
      match groupHeight g with
      | some hv => some hv
      | none => acc)
    none

/-- A group's serialized text signals residential use (source lines 94–99):
it contains `"residential"` or `"dwelling"` case-insensitively. -/
def psetResidentialSignal (props : Props) : Bool :=
  containsSub (lowerStr (reprProps props)) "residential" ||
    containsSub (lowerStr (reprProps props)) "dwelling"

/-- The residential name keywords of source line 103. -/
def residentialNameTerms : List String :=
  ["residential", "dwelling", "apartment", "bedroom", "family"]

/-- The display name signals residential use (source lines 101–105). -/
def nameResidentialSignal (nm : String) : Bool :=
  residentialNameTerms.any fun t => containsSub (lowerStr nm) t

/-- Use-type classification (source lines 89–105): the property-group signal
first; only when it is absent is the display name consulted (the name is
always non-empty thanks to the generated fallback label, so Python's
`and space_name` guard is always true). -/
def classifyResidential (sp : Space) : Bool :=
  if sp.psets.any (fun g => psetResidentialSignal g.2) then true
  else nameResidentialSignal (spaceName sp)

/-- Per-space evaluation (source lines 67–141): identity extraction, height
discovery, classification, threshold comparison and record construction.
The unused `explicit_height` / `height_found_in_properties` variables of the
source are dead and omitted. -/
def evalSpace (resMin comMin : Value) (sp : Space) : Except String Rec :=
  let space_name := spaceName sp
  let is_residential := classifyResidential sp
  let use_type := if is_residential then "Residential" else "Commercial"
  let required_height := if is_residential then resMin else comMin
  match discoverHeight sp.psets with
  | some height_value =>
    match pyGeInt height_value required_height with
    | .error e => .error e
    | .ok ge =>
      .ok { element_id := sp.globalId
            element_type := "IfcSpace"
            element_name := space_name
            element_name_long := sp.longName
            check_status := if ge then "pass" else "fail"
            actual_value := toString height_value ++ "mm"
            required_value :=
              ">= " ++ strValue required_height ++ "mm (" ++ use_type ++ ")"
            comment :=
              if ge then none
              else some ("Space height " ++ toString height_value ++
                "mm is below required minimum " ++ strValue required_height ++
                "mm for " ++ use_type)
            log := some ("use_type=" ++ use_type ++ ", properties_checked=True") }
  | none =>
    .ok { element_id := sp.globalId
          element_type := "IfcSpace"
          element_name := space_name
          element_name_long := sp.longName
          check_status := "warning"
          actual_value := "Height not specified"
          required_value :=
            ">= " ++ strValue required_height ++ "mm (" ++ use_type ++ ")"
          comment := some "No explicit height property found for space. Cannot verify compliance."
          log := some ("use_type=" ++ use_type ++ ", properties_checked=True") }

/-- The counter updates of source lines 117–127, keyed by the emitted
status (`"pass"`, `"fail"` and `"warning"` are the only statuses a space
record carries, one per branch). -/
def bumpCounts (status : String) (p f w : Nat) : Nat × Nat × Nat :=
  if status = "pass" then (p + 1, f, w)
  else if status = "fail" then (p, f + 1, w)
  else (p, f, w + 1)

/-- The per-space loop of source lines 67–141, threading the result list and
the three counters; a `TypeError` aborts the whole call, as in Python. -/
def processSpaces (resMin comMin : Value) :
    List Space → List Rec × Nat × Nat × Nat →
      Except String (List Rec × Nat × Nat × Nat)
  | [], acc => .ok acc
  | sp :: rest, (recs, p, f, w) =>
    match evalSpace resMin comMin sp with
    | .error e => .error e
    | .ok r =>
      let counts := bumpCounts r.check_status p f w
      processSpaces resMin comMin rest (recs ++ [r], counts.1, counts.2.1, counts.2.2)

/-- The zero-spaces summary record (source lines 41–51). -/
def emptySummary : Rec :=
  { element_id := none
    element_type := "Summary"
    element_name := "Room Heights Check"
    element_name_long := none
    check_status := "log"
    actual_value := "0 spaces found"
    required_value := ">= 1 space"
    comment := some "No IfcSpace elements found in model"
    log := none }

/-- The trailing summary record (source lines 147–157). -/
def mkSummary (p f w total : Nat) : Rec :=
  { element_id := none
    element_type := "Summary"
    element_name := "Room Heights Check Summary"
    element_name_long := none
    check_status := if f = 0 then "pass" else "fail"
    actual_value :=
      toString p ++ " pass, " ++ toString f ++ " fail, " ++ toString w ++ " warning"
    required_value :=
      "All " ++ toString total ++ " spaces meet minimum height requirements"
    comment := some ("Checked " ++ toString total ++ " space(s): " ++ toString p ++
      " compliant, " ++ toString f ++ " non-compliant, " ++ toString w ++
      " with missing data")
    log := none }

/-- The storey-elevation index of source lines 54–60 (built, never read). -/
def storeyElevations (m : Model) : List (Nat × Int) :=
  m.storeys.foldl
    (fun acc st =>
      match st.elevation with
      | some e => acc ++ [(st.localId, e)]
      | none => acc)
    []

/-- The checker, `check_room_heights(model, **kwargs)` (source lines 18–159). -/
def check_room_heights (model : Model) (opts : Options) :
    Except String (List Rec) :=
  let RESIDENTIAL_MIN_HEIGHT := getOpt opts.residential_min_height 2700
  let COMMERCIAL_MIN_HEIGHT := getOpt opts.commercial_min_height 2800
  let _SLOPED_CEILING_MIN_HEIGHT := getOpt opts.sloped_min_height 2100
  if model.spaces.isEmpty then
    .ok [emptySummary]
  else
    let _storey_elevations := storeyElevations model
    match processSpaces RESIDENTIAL_MIN_HEIGHT COMMERCIAL_MIN_HEIGHT
        model.spaces ([], 0, 0, 0) with
    | .error e => .error e
    | .ok (recs, p, f, w) =>
      .ok (recs ++ [mkSummary p f w model.spaces.length])

deriving instance DecidableEq for Except

/-! ### Substring lemmas -/

/-- The empty needle is contained in every haystack. -/
theorem listContainsSub_nil (l : List Char) : listContainsSub [] l = true := by
  cases l <;> simp [listContainsSub, listStartsWith, List.isEmpty]

/-- Extending the haystack on the right preserves a prefix match. -/
theorem listStartsWith_append (n : List Char) :
    ∀ (l suf : List Char), listStartsWith l n = true →
      listStartsWith (l ++ suf) n = true := by
  induction n with
  | nil => intro l suf _; cases l <;> simp [listStartsWith]
  | cons b bs ih =>
    intro l suf h
    cases l with
    | nil => simp [listStartsWith] at h
    | cons a as =>
      simp [listStartsWith, Bool.and_eq_true] at h ⊢
      exact ⟨h.1, ih as suf h.2⟩

/-- Extending the haystack on the left preserves containment. -/
theorem listContainsSub_append_left (n pre l : List Char)
    (h : listContainsSub n l = true) :
    listContainsSub n (pre ++ l) = true := by
  induction pre with
  | nil => simpa using h
  | cons c cs ih =>
    simp only [List.cons_append, listContainsSub, Bool.or_eq_true]
    exact Or.inr ih

/-- Extending the haystack on the right preserves containment. -/
theorem listContainsSub_append_right (n l suf : List Char)
    (h : listContainsSub n l = true) :
    listContainsSub n (l ++ suf) = true := by
  induction l with
  | nil =>
    simp [listContainsSub, List.isEmpty_iff] at h
    subst h
    exact listContainsSub_nil suf
  | cons c cs ih =>
    simp only [listContainsSub, Bool.or_eq_true] at h
    rcases h with h | h
    · simp only [List.cons_append, listContainsSub, Bool.or_eq_true]
      exact Or.inl (listStartsWith_append n (c :: cs) suf h)
    · simp only [List.cons_append, listContainsSub, Bool.or_eq_true]
      exact Or.inr (ih h)

/-- `(s ++ t).data` unfolds to list append. -/
theorem data_append (s t : String) : (s ++ t).data = s.data ++ t.data := rfl

/-- A needle contained (case-insensitively) in a middle piece of a string is
contained in the whole string. -/
theorem containsSub_mono (s k n : String) (pre suf : List Char)
    (hdata : s.data = pre ++ (k.data ++ suf))
    (h : containsSub (lowerStr k) n = true) :
    containsSub (lowerStr s) n = true := by
  simp only [containsSub, lowerStr, lowerChars] at h ⊢
  rw [hdata, List.map_append, List.map_append]
  exact listContainsSub_append_left _ _ _
    (listContainsSub_append_right _ _ _ h)

/-- `str(dict)` of a non-empty group starts with its first entry. -/
theorem reprEntries_cons (e : String × Value) (rest : Props) :
    ∃ suf : List Char,
      (reprEntries (e :: rest)).data = (reprEntry e).data ++ suf := by
  cases rest with
  | nil => exact ⟨[], by simp [reprEntries]⟩
  | cons f fs =>
    exact ⟨(", " ++ reprEntries (f :: fs)).data,
      by simp [reprEntries, data_append, List.append_assoc]⟩

/-- `str(properties)` of a group whose first key is `k` contains `k` as a
middle piece. -/
theorem reprProps_cons (k : String) (v : Value) (rest : Props) :
    ∃ pre suf : List Char,
      (reprProps ((k, v) :: rest)).data = pre ++ (k.data ++ suf) := by
  obtain ⟨suf, hsuf⟩ := reprEntries_cons (k, v) rest
  refine ⟨"\x7b".data ++ "\x27".data,
    ("\x27: " ++ reprValue v).data ++ suf ++ "\x7d".data, ?_⟩
  simp only [reprProps, reprEntry, data_append, List.append_assoc] at hsuf ⊢
  rw [hsuf]
  simp [data_append, List.append_assoc]

/-! ### Structure of the checker's output -/

/-- The number of records in `recs` carrying status `s`. -/
def countStatus (recs : List Rec) (s : String) : Nat :=
  (recs.filter fun r => r.check_status == s).length

theorem countStatus_nil (s : String) : countStatus [] s = 0 := rfl

theorem countStatus_cons_eq (r : Rec) (recs : List Rec) (s : String)
    (h : r.check_status = s) :
    countStatus (r :: recs) s = countStatus recs s + 1 := by
  simp [countStatus, List.filter_cons, h]

theorem countStatus_cons_ne (r : Rec) (recs : List Rec) (s : String)
    (h : (r.check_status == s) = false) :
    countStatus (r :: recs) s = countStatus recs s := by
  simp [countStatus, List.filter_cons, h]

/-- Every record a space produces is an `IfcSpace` record whose status is
`pass`, `fail` or `warning`. -/
theorem evalSpace_shape (resMin comMin : Value) (sp : Space) (r : Rec)
    (h : evalSpace resMin comMin sp = .ok r) :
    r.element_type = "IfcSpace" ∧
      (r.check_status = "pass" ∨ r.check_status = "fail" ∨
        r.check_status = "warning") := by
  simp only [evalSpace] at h
  cases hd : discoverHeight sp.psets with
  | none =>
    rw [hd] at h
    simp only [] at h
    cases h
    exact ⟨rfl, Or.inr (Or.inr rfl)⟩
  | some hv =>
    rw [hd] at h
    simp only [] at h
    cases hge : pyGeInt hv (if classifyResidential sp then resMin else comMin) with
    | error e => rw [hge] at h; exact absurd h (by simp)
    | ok ge =>
      rw [hge] at h
      simp only [Except.ok.injEq] at h
      subst h
      refine ⟨rfl, ?_⟩
      cases ge
      · exact Or.inr (Or.inl rfl)
      · exact Or.inl rfl

/-- The loop invariant of the per-space pass: on success, the accumulator
grows by one record per space and the counters count the emitted statuses. -/
theorem processSpaces_ok (resMin comMin : Value) (l : List Space) :
    ∀ (recs₀ : List Rec) (p₀ f₀ w₀ : Nat) (out : List Rec × Nat × Nat × Nat),
      processSpaces resMin comMin l (recs₀, p₀, f₀, w₀) = .ok out →
      ∃ nw : List Rec,
        out = (recs₀ ++ nw, p₀ + countStatus nw "pass",
               f₀ + countStatus nw "fail", w₀ + countStatus nw "warning") ∧
        nw.length = l.length ∧
        ∀ r ∈ nw, r.element_type = "IfcSpace" ∧
          (r.check_status = "pass" ∨ r.check_status = "fail" ∨
            r.check_status = "warning") := by
  induction l with
  | nil =>
    intro recs₀ p₀ f₀ w₀ out h
    simp only [processSpaces, Except.ok.injEq] at h
    exact ⟨[], by simp [← h, countStatus], rfl, by simp⟩
  | cons sp rest ih =>
    intro recs₀ p₀ f₀ w₀ out h
    simp only [processSpaces] at h
    cases he : evalSpace resMin comMin sp with
    | error e => rw [he] at h; exact absurd h (by simp)
    | ok r =>
      rw [he] at h
      simp only [] at h
      obtain ⟨htype, hst⟩ := evalSpace_shape _ _ _ _ he
      rcases hst with hs | hs | hs
      · rw [show bumpCounts r.check_status p₀ f₀ w₀ = (p₀ + 1, f₀, w₀) by
          simp [bumpCounts, hs]] at h
        obtain ⟨nw, hout, hlen, hall⟩ := ih _ _ _ _ _ h
        refine ⟨r :: nw, ?_, by simp [hlen], ?_⟩
        · rw [hout,
            countStatus_cons_eq r nw _ hs,
            countStatus_cons_ne r nw "fail" (by rw [hs]; rfl),
            countStatus_cons_ne r nw "warning" (by rw [hs]; rfl)]
          simp [List.append_assoc]
          omega
        · intro x hx
          rcases List.mem_cons.mp hx with hx | hx
          · exact hx ▸ ⟨htype, Or.inl hs⟩
          · exact hall x hx
      · rw [show bumpCounts r.check_status p₀ f₀ w₀ = (p₀, f₀ + 1, w₀) by
          simp [bumpCounts, hs]] at h
        obtain ⟨nw, hout, hlen, hall⟩ := ih _ _ _ _ _ h
        refine ⟨r :: nw, ?_, by simp [hlen], ?_⟩
        · rw [hout,
            countStatus_cons_eq r nw _ hs,
            countStatus_cons_ne r nw "pass" (by rw [hs]; rfl),
            countStatus_cons_ne r nw "warning" (by rw [hs]; rfl)]
          simp [List.append_assoc]
          omega
        · intro x hx
          rcases List.mem_cons.mp hx with hx | hx
          · exact hx ▸ ⟨htype, Or.inr (Or.inl hs)⟩
          · exact hall x hx
      · rw [show bumpCounts r.check_status p₀ f₀ w₀ = (p₀, f₀, w₀ + 1) by
          simp [bumpCounts, hs]] at h
        obtain ⟨nw, hout, hlen, hall⟩ := ih _ _ _ _ _ h
        refine ⟨r :: nw, ?_, by simp [hlen], ?_⟩
        · rw [hout,
            countStatus_cons_eq r nw _ hs,
            countStatus_cons_ne r nw "pass" (by rw [hs]; rfl),
            countStatus_cons_ne r nw "fail" (by rw [hs]; rfl)]
          simp [List.append_assoc]
          omega
        · intro x hx
          rcases List.mem_cons.mp hx with hx | hx
          · exact hx ▸ ⟨htype, Or.inr (Or.inr hs)⟩
          · exact hall x hx

/-- On every successful run over a non-empty space list, the output is the
per-space records followed by one summary built from the status counts. -/
theorem check_ok_structure (m : Model) (opts : Options) (out : List Rec)
    (hne : m.spaces ≠ []) (hok : check_room_heights m opts = .ok out) :
    ∃ nw : List Rec,
      out = nw ++ [mkSummary (countStatus nw "pass") (countStatus nw "fail")
        (countStatus nw "warning") m.spaces.length] ∧
      nw.length = m.spaces.length ∧
      ∀ r ∈ nw, r.element_type = "IfcSpace" ∧
        (r.check_status = "pass" ∨ r.check_status = "fail" ∨
          r.check_status = "warning") := by
  have hie : m.spaces.isEmpty = false := by
    cases hsp : m.spaces with
    | nil => exact absurd hsp hne
    | cons a as => rfl
  simp only [check_room_heights, hie, Bool.false_eq_true, if_false] at hok
  cases hps : processSpaces (getOpt opts.residential_min_height 2700)
      (getOpt opts.commercial_min_height 2800) m.spaces ([], 0, 0, 0) with
  | error e => rw [hps] at hok; exact absurd hok (by simp)
  | ok acc =>
    rw [hps] at hok
    obtain ⟨recs, p, f, w⟩ := acc
    simp only [Except.ok.injEq] at hok
    obtain ⟨nw, hout, hlen, hall⟩ := processSpaces_ok _ _ _ _ _ _ _ _ hps
    simp only [Prod.mk.injEq, List.nil_append, Nat.zero_add] at hout
    obtain ⟨hrecs, hp, hf, hw⟩ := hout
    refine ⟨nw, ?_, hlen, hall⟩
    rw [← hok, hrecs, hp, hf, hw]

/-- With numeric thresholds the per-space evaluation never faults, and the
produced record is this explicit function of the discovered height and the
classification. -/
theorem evalSpace_num (r c : Int) (sp : Space) :
    evalSpace (Value.num r) (Value.num c) sp = Except.ok
      { element_id := sp.globalId
        element_type := "IfcSpace"
        element_name := spaceName sp
        element_name_long := sp.longName
        check_status :=
          match discoverHeight sp.psets with
          | some hv =>
            if (if classifyResidential sp then r else c) ≤ hv then "pass" else "fail"
          | none => "warning"
        actual_value :=
          match discoverHeight sp.psets with
          | some hv => toString hv ++ "mm"
          | none => "Height not specified"
        required_value :=
          ">= " ++ toString (if classifyResidential sp then r else c) ++ "mm (" ++
            (if classifyResidential sp then "Residential" else "Commercial") ++ ")"
        comment :=
          match discoverHeight sp.psets with
          | some hv =>
            if (if classifyResidential sp then r else c) ≤ hv then none
            else some ("Space height " ++ toString hv ++
              "mm is below required minimum " ++
              toString (if classifyResidential sp then r else c) ++ "mm for " ++
              (if classifyResidential sp then "Residential" else "Commercial"))
          | none => some "No explicit height property found for space. Cannot verify compliance."
        log := some ("use_type=" ++
          (if classifyResidential sp then "Residential" else "Commercial") ++
          ", properties_checked=True") } := by
  cases hd : discoverHeight sp.psets with
  | none =>
    cases hcr : classifyResidential sp <;>
      simp [evalSpace, hd, hcr, strValue]
  | some hv =>
    cases hcr : classifyResidential sp <;>
      by_cases hle : (if classifyResidential sp then r else c) ≤ hv <;>
        simp_all [evalSpace, hd, hcr, pyGeInt, strValue]

/-- Statuses partition the space records. -/
theorem countStatus_partition (recs : List Rec)
    (h : ∀ r ∈ recs, r.check_status = "pass" ∨ r.check_status = "fail" ∨
      r.check_status = "warning") :
    countStatus recs "pass" + countStatus recs "fail" + countStatus recs "warning"
      = recs.length := by
  induction recs with
  | nil => rfl
  | cons r rest ih =>
    have hr := h r (List.mem_cons_self r rest)
    have hrest := ih fun x hx => h x (List.mem_cons_of_mem r hx)
    rcases hr with hs | hs | hs
    · rw [countStatus_cons_eq r rest _ hs,
        countStatus_cons_ne r rest "fail" (by rw [hs]; rfl),
        countStatus_cons_ne r rest "warning" (by rw [hs]; rfl),
        List.length_cons]
      omega
    · rw [countStatus_cons_eq r rest _ hs,
        countStatus_cons_ne r rest "pass" (by rw [hs]; rfl),
        countStatus_cons_ne r rest "warning" (by rw [hs]; rfl),
        List.length_cons]
      omega
    · rw [countStatus_cons_eq r rest _ hs,
        countStatus_cons_ne r rest "pass" (by rw [hs]; rfl),
        countStatus_cons_ne r rest "fail" (by rw [hs]; rfl),
        List.length_cons]
      omega

/-! ### Claims -/

/-- Claim C1: for every space with a discovered numeric height `hv`, the
record's status is `pass` iff `hv` reaches the threshold of its use class
(residential threshold when Residential, commercial threshold when
Commercial) and `fail` otherwise; on `fail` the comment states the actual
height, the required minimum and the use type; on `pass` the comment is
absent; with no discovered height the status is `warning` with actual value
"Height not specified". -/
theorem c1_threshold_application (sp : Space) (r c : Int) (rec : Rec)
    (h : evalSpace (Value.num r) (Value.num c) sp = Except.ok rec) :
    (∀ hv : Int, discoverHeight sp.psets = some hv →
      (classifyResidential sp = true →
        ((rec.check_status = "pass") ↔ r ≤ hv) ∧
        ((rec.check_status = "fail") ↔ hv < r)) ∧
      (classifyResidential sp = false →
        ((rec.check_status = "pass") ↔ c ≤ hv) ∧
        ((rec.check_status = "fail") ↔ hv < c)) ∧
      (rec.check_status = "fail" →
        rec.comment = some ("Space height " ++ toString hv ++
          "mm is below required minimum " ++
          toString (if classifyResidential sp then r else c) ++ "mm for " ++
          (if classifyResidential sp then "Residential" else "Commercial"))) ∧
      (rec.check_status = "pass" → rec.comment = none)) ∧
    (discoverHeight sp.psets = none →
      rec.check_status = "warning" ∧ rec.actual_value = "Height not specified") := by
  rw [evalSpace_num] at h
  injection h with h
  subst h
  constructor
  · intro hv hd
    cases hcr : classifyResidential sp <;>
      by_cases hle : (if classifyResidential sp then r else c) ≤ hv <;>
        simp_all
  · intro hd
    simp [hd]

def w1space : Space :=
  { globalId := some "G1"
    localId := 1
    name := some "Bedroom 2"
    longName := none
    psets := [("Pset_SpaceCommon", [("Height", Value.num 2650)])] }

def w1rec : Rec :=
  { element_id := some "G1"
    element_type := "IfcSpace"
    element_name := "Bedroom 2"
    element_name_long := none
    check_status := "fail"
    actual_value := "2650mm"
    required_value := ">= 2700mm (Residential)"
    comment := some "Space height 2650mm is below required minimum 2700mm for Residential"
    log := some "use_type=Residential, properties_checked=True" }

/-- Witness for C1: a residential bedroom of height 2650 against the 2700
threshold. -/
theorem c1_threshold_application_witness :
    (∀ hv : Int, discoverHeight w1space.psets = some hv →
      (classifyResidential w1space = true →
        ((w1rec.check_status = "pass") ↔ (2700 : Int) ≤ hv) ∧
        ((w1rec.check_status = "fail") ↔ hv < (2700 : Int))) ∧
      (classifyResidential w1space = false →
        ((w1rec.check_status = "pass") ↔ (2800 : Int) ≤ hv) ∧
        ((w1rec.check_status = "fail") ↔ hv < (2800 : Int))) ∧
      (w1rec.check_status = "fail" →
        w1rec.comment = some ("Space height " ++ toString hv ++
          "mm is below required minimum " ++
          toString (if classifyResidential w1space then (2700 : Int) else 2800) ++
          "mm for " ++
          (if classifyResidential w1space then "Residential" else "Commercial"))) ∧
      (w1rec.check_status = "pass" → w1rec.comment = none)) ∧
    (discoverHeight w1space.psets = none →
      w1rec.check_status = "warning" ∧
      w1rec.actual_value = "Height not specified") :=
  c1_threshold_application w1space 2700 2800 w1rec (by rfl)

def c2space : Space :=
  { globalId := none
    localId := 2
    name := some "Hall"
    longName := none
    psets := [("A", [("Height", Value.num 3000)]), ("B", [("Height", Value.num 100)])] }

/-- Counterexample to C2: the space carries two property groups, the first
with height 3000 and the second with height 100.  The claim says scanning
stops at the first numeric height, so 3000 would be used and the (Commercial,
threshold 2800) check would pass; the code's outer loop has no `break`, so
the last group's 100 is used and the check fails. -/
theorem c2_counterexample :
    findHeightInGroup [("Height", Value.num 3000)] = some 3000 ∧
    discoverHeight c2space.psets = some 100 ∧
    discoverHeight c2space.psets ≠ some 3000 ∧
    (check_room_heights { spaces := [c2space], storeys := [] } {}).toOption.map
        (fun out => out.map fun rec => rec.check_status) =
      some ["fail", "fail"] := by
  refine ⟨by decide, by decide, by decide, by decide⟩

/-- Claim C2 (amended): within a group whose serialization contains
"height", the first key containing "height" with a numeric value is the
group's height; but scanning does NOT stop at the first group that yields a
numeric height — each later group that yields one overwrites it, so the
height used is the one from the LAST such group. -/
theorem c2_amended_latest_group (pre post : Psets) (g : String × Props)
    (hv : Int) (hg : groupHeight g = some hv)
    (hpost : ∀ g2 ∈ post, groupHeight g2 = none) :
    discoverHeight (pre ++ g :: post) = some hv := by
  have hfold : ∀ (l : Psets) (acc : Option Int), (∀ g2 ∈ l, groupHeight g2 = none) →
      l.foldl (fun acc g =>
        match groupHeight g with
        | some hv => some hv
        | none => acc) acc = acc := by
    intro l
    induction l with
    | nil => intro acc _; rfl
    | cons x xs ih =>
      intro acc hall
      simp only [List.foldl_cons, hall x (List.mem_cons_self x xs)]
      exact ih acc fun y hy => hall y (List.mem_cons_of_mem x hy)
  unfold discoverHeight
  rw [List.foldl_append, List.foldl_cons, hg]
  exact hfold post _ hpost

/-- Witness for C2 (amended): a width-only group, then a numeric ceiling
height, then a trailing group with no height data. -/
theorem c2_amended_latest_group_witness :
    discoverHeight ([("X", [("Width", Value.num 5)])] ++
      ("A", [("CeilingHeight", Value.num 2750)]) ::
      [("B", [("Note", Value.str "flat")])]) = some 2750 :=
  c2_amended_latest_group [("X", [("Width", Value.num 5)])]
    [("B", [("Note", Value.str "flat")])]
    ("A", [("CeilingHeight", Value.num 2750)]) 2750 (by decide) (by decide)

def c3space : Space :=
  { globalId := none
    localId := 5
    name := some "Office"
    longName := none
    psets := [] }

def c3model : Model := { spaces := [c3space], storeys := [] }

/-- Counterexample to C3: supplying `commercial_min_height` with the string
"very tall" does NOT fall back to the default 2800 — the string is used
verbatim and leaks into the record's required-value text, so the output
differs from the absent-key call. -/
theorem c3_counterexample :
    check_room_heights c3model
        { commercial_min_height := some (Value.str "very tall") } ≠
      check_room_heights c3model {} ∧
    (check_room_heights c3model
          { commercial_min_height := some (Value.str "very tall") }).toOption.map
        (fun out => out.map fun rec => rec.required_value) =
      some [">= very tallmm (Commercial)",
        "All 1 spaces meet minimum height requirements"] ∧
    (check_room_heights c3model {}).toOption.map
        (fun out => out.map fun rec => rec.required_value) =
      some [">= 2800mm (Commercial)",
        "All 1 spaces meet minimum height requirements"] := by
  refine ⟨by decide, by decide, by decide⟩

/-- Claim C3 (amended): a supplied threshold override is used verbatim,
whatever its type — no validation happens; only an ABSENT key falls back to
the documented default (2700 / 2800 / 2100), so a call with all keys absent
is identical to a call supplying exactly the defaults. -/
theorem c3_amended_defaults :
    (∀ (v : Value) (d : Int), getOpt (some v) d = v) ∧
    (∀ d : Int, getOpt none d = Value.num d) ∧
    (∀ m : Model, check_room_heights m {} =
      check_room_heights m
        { residential_min_height := some (Value.num 2700)
          commercial_min_height := some (Value.num 2800)
          sloped_min_height := some (Value.num 2100) }) :=
  ⟨fun _ _ => rfl, fun _ => rfl, fun _ => rfl⟩

/-- Claim C4: classification is binary with fixed precedence — a space is
Residential iff some property group's serialization contains "residential"
or "dwelling" (case-insensitively), or, failing that, its display name
contains one of the residential keywords; in particular a "dwelling" signal
in the property groups forces Residential regardless of the name, and the
resolved use type is the one recorded in the emitted record's log field. -/
theorem c4_classification_precedence (sp : Space) :
    ((classifyResidential sp = true) ↔
      ((∃ g ∈ sp.psets,
          containsSub (lowerStr (reprProps g.2)) "residential" = true ∨
          containsSub (lowerStr (reprProps g.2)) "dwelling" = true) ∨
        (∃ t ∈ residentialNameTerms,
          containsSub (lowerStr (spaceName sp)) t = true))) ∧
    (∀ g, g ∈ sp.psets →
      containsSub (lowerStr (reprProps g.2)) "dwelling" = true →
      classifyResidential sp = true) ∧
    (∀ (r c : Int) (rec : Rec),
      evalSpace (Value.num r) (Value.num c) sp = Except.ok rec →
      rec.log = some ("use_type=" ++
        (if classifyResidential sp then "Residential" else "Commercial") ++
        ", properties_checked=True")) := by
  have hmain : (classifyResidential sp = true) ↔
      ((∃ g ∈ sp.psets,
          containsSub (lowerStr (reprProps g.2)) "residential" = true ∨
          containsSub (lowerStr (reprProps g.2)) "dwelling" = true) ∨
        (∃ t ∈ residentialNameTerms,
          containsSub (lowerStr (spaceName sp)) t = true)) := by
    simp only [classifyResidential]
    split
    · rename_i hA
      simp only [List.any_eq_true, psetResidentialSignal, Bool.or_eq_true] at hA
      simp only [true_iff]
      exact Or.inl hA
    · rename_i hA
      simp only [List.any_eq_true, psetResidentialSignal, Bool.or_eq_true] at hA
      push_neg at hA
      simp only [nameResidentialSignal, List.any_eq_true]
      constructor
      · intro h
        exact Or.inr h
      · intro h
        rcases h with h | h
        · obtain ⟨g, hg, hsig⟩ := h
          exact absurd hsig (by simpa using hA g hg)
        · exact h
  refine ⟨hmain, ?_, ?_⟩
  · intro g hg hdw
    rw [hmain]
    exact Or.inl ⟨g, hg, Or.inr hdw⟩
  · intro r c rec h
    rw [evalSpace_num] at h
    injection h with h
    subst h
    rfl

def w4space : Space :=
  { globalId := none
    localId := 9
    name := some "Office 3"
    longName := none
    psets := [("Pset", [("OccupancyType", Value.str "Dwelling")])] }

/-- Witness for C4: a space whose property groups mention "Dwelling" but
whose name ("Office 3") contains no residential keyword is classified
Residential. -/
theorem c4_classification_precedence_witness :
    classifyResidential w4space = true ∧
    nameResidentialSignal (spaceName w4space) = false :=
  ⟨(c4_classification_precedence w4space).2.1
      ("Pset", [("OccupancyType", Value.str "Dwelling")]) (by decide) (by decide),
    by decide⟩

/-- Claim C5: on every successful run over N ≥ 1 spaces, the pass/fail/
warning counts over the non-summary records sum to N, the summary's status is
`fail` iff the fail count is positive and `pass` otherwise, and the summary's
actual value reproduces exactly the three counts. -/
theorem c5_counter_consistency (m : Model) (opts : Options) (out : List Rec)
    (hne : m.spaces ≠ []) (hok : check_room_heights m opts = Except.ok out) :
    ∃ (recs : List Rec) (summary : Rec),
      out = recs ++ [summary] ∧
      countStatus recs "pass" + countStatus recs "fail" + countStatus recs "warning"
        = m.spaces.length ∧
      (summary.check_status = "fail" ↔ 0 < countStatus recs "fail") ∧
      (summary.check_status = "pass" ↔ countStatus recs "fail" = 0) ∧
      summary.actual_value =
        toString (countStatus recs "pass") ++ " pass, " ++
          toString (countStatus recs "fail") ++ " fail, " ++
          toString (countStatus recs "warning") ++ " warning" := by
  obtain ⟨nw, hout, hlen, hall⟩ := check_ok_structure m opts out hne hok
  refine ⟨nw, _, hout, ?_, ?_, ?_, rfl⟩
  · rw [← hlen]
    exact countStatus_partition nw fun r hr => (hall r hr).2
  · by_cases hf : countStatus nw "fail" = 0
    · simp [mkSummary, hf]
    · simp only [mkSummary, hf, if_false]
      simp [hf]
      omega
  · by_cases hf : countStatus nw "fail" = 0 <;> simp [mkSummary, hf]

def w5space : Space :=
  { globalId := some "W5"
    localId := 20
    name := some "Office B"
    longName := none
    psets := [("Qto_SpaceBaseQuantities", [("FinishCeilingHeight", Value.num 2500)])] }

def w5model : Model := { spaces := [w5space], storeys := [] }

def w5out : List Rec :=
  [{ element_id := some "W5"
     element_type := "IfcSpace"
     element_name := "Office B"
     element_name_long := none
     check_status := "fail"
     actual_value := "2500mm"
     required_value := ">= 2800mm (Commercial)"
     comment := some "Space height 2500mm is below required minimum 2800mm for Commercial"
     log := some "use_type=Commercial, properties_checked=True" },
   { element_id := none
     element_type := "Summary"
     element_name := "Room Heights Check Summary"
     element_name_long := none
     check_status := "fail"
     actual_value := "0 pass, 1 fail, 0 warning"
     required_value := "All 1 spaces meet minimum height requirements"
     comment := some "Checked 1 space(s): 0 compliant, 1 non-compliant, 0 with missing data"
     log := none }]

/-- Witness for C5: a one-space model whose space fails. -/
theorem c5_counter_consistency_witness :
    ∃ (recs : List Rec) (summary : Rec),
      w5out = recs ++ [summary] ∧
      countStatus recs "pass" + countStatus recs "fail" + countStatus recs "warning"
        = w5model.spaces.length ∧
      (summary.check_status = "fail" ↔ 0 < countStatus recs "fail") ∧
      (summary.check_status = "pass" ↔ countStatus recs "fail" = 0) ∧
      summary.actual_value =
        toString (countStatus recs "pass") ++ " pass, " ++
          toString (countStatus recs "fail") ++ " fail, " ++
          toString (countStatus recs "warning") ++ " warning" :=
  c5_counter_consistency w5model {} w5out (by decide) (by rfl)

/-- Claim C6: on every successful run, a model with N ≥ 1 spaces yields
exactly N + 1 records with the last tagged Summary, and a model with no
spaces yields exactly the single `log` record (no other phase runs). -/
theorem c6_cardinality (m : Model) (opts : Options) (out : List Rec)
    (hok : check_room_heights m opts = Except.ok out) :
    (m.spaces ≠ [] → out.length = m.spaces.length + 1 ∧
      ∃ s : Rec, out.getLast? = some s ∧ s.element_type = "Summary") ∧
    (m.spaces = [] →
      out = [emptySummary] ∧ emptySummary.check_status = "log" ∧
      emptySummary.actual_value = "0 spaces found" ∧
      emptySummary.required_value = ">= 1 space" ∧
      emptySummary.element_type = "Summary") := by
  constructor
  · intro hne
    obtain ⟨nw, hout, hlen, hall⟩ := check_ok_structure m opts out hne hok
    subst hout
    refine ⟨by simp [hlen], mkSummary (countStatus nw "pass")
      (countStatus nw "fail") (countStatus nw "warning") m.spaces.length, ?_, rfl⟩
    simp
  · intro hempty
    have hie : m.spaces.isEmpty = true := by simp [hempty]
    simp only [check_room_heights, hie, if_true] at hok
    injection hok with hok
    exact ⟨hok.symm, rfl, rfl, rfl, rfl⟩

def w6space : Space :=
  { globalId := none
    localId := 7
    name := some "Office 101"
    longName := some "Ground floor office"
    psets := [] }

def w6model : Model := { spaces := [w6space], storeys := [] }

def w6out : List Rec :=
  [{ element_id := none
     element_type := "IfcSpace"
     element_name := "Office 101"
     element_name_long := some "Ground floor office"
     check_status := "warning"
     actual_value := "Height not specified"
     required_value := ">= 2800mm (Commercial)"
     comment := some "No explicit height property found for space. Cannot verify compliance."
     log := some "use_type=Commercial, properties_checked=True" },
   { element_id := none
     element_type := "Summary"
     element_name := "Room Heights Check Summary"
     element_name_long := none
     check_status := "pass"
     actual_value := "0 pass, 0 fail, 1 warning"
     required_value := "All 1 spaces meet minimum height requirements"
     comment := some "Checked 1 space(s): 0 compliant, 0 non-compliant, 1 with missing data"
     log := none }]

/-- Witness for C6: the one-space model gives two records ending in a
Summary, and the zero-space model gives exactly the `log` record. -/
theorem c6_cardinality_witness :
    (w6out.length = w6model.spaces.length + 1 ∧
      ∃ s : Rec, w6out.getLast? = some s ∧ s.element_type = "Summary") ∧
    (([emptySummary] : List Rec) = [emptySummary] ∧
      emptySummary.check_status = "log" ∧
      emptySummary.actual_value = "0 spaces found" ∧
      emptySummary.required_value = ">= 1 space" ∧
      emptySummary.element_type = "Summary") :=
  ⟨(c6_cardinality w6model {} w6out (by rfl)).1 (by decide),
    (c6_cardinality { spaces := [], storeys := [] } {} [emptySummary]
      (by rfl)).2 rfl⟩

/-- Claim C7: every record of every successful run has a status in the
closed set pass/fail/warning/log, and every non-summary record's element
kind is "IfcSpace". -/
theorem c7_closed_status_set (m : Model) (opts : Options) (out : List Rec)
    (hok : check_room_heights m opts = Except.ok out) :
    ∀ rec ∈ out,
      (rec.check_status = "pass" ∨ rec.check_status = "fail" ∨
        rec.check_status = "warning" ∨ rec.check_status = "log") ∧
      (rec.element_type ≠ "Summary" → rec.element_type = "IfcSpace") := by
  by_cases hne : m.spaces = []
  · have hie : m.spaces.isEmpty = true := by simp [hne]
    simp only [check_room_heights, hie, if_true] at hok
    injection hok with hok
    rw [← hok]
    intro rec hr
    simp only [List.mem_singleton] at hr
    subst hr
    exact ⟨Or.inr (Or.inr (Or.inr rfl)), fun hne' => absurd rfl hne'⟩
  · obtain ⟨nw, hout, hlen, hall⟩ := check_ok_structure m opts out hne hok
    subst hout
    intro rec hr
    rcases List.mem_append.mp hr with h | h
    · obtain ⟨ht, hs⟩ := hall rec h
      exact ⟨by tauto, fun _ => ht⟩
    · simp only [List.mem_singleton] at h
      subst h
      refine ⟨?_, fun hne' => absurd rfl hne'⟩
      by_cases hf : countStatus nw "fail" = 0 <;> simp [mkSummary, hf]

/-- Witness for C7 at the zero-space model's single record. -/
theorem c7_closed_status_set_witness :
    emptySummary.check_status = "pass" ∨ emptySummary.check_status = "fail" ∨
      emptySummary.check_status = "warning" ∨ emptySummary.check_status = "log" :=
  (c7_closed_status_set { spaces := [], storeys := [] } {} [emptySummary]
    (by rfl) emptySummary (by simp)).1

/-- Claim C8: the sloped-ceiling threshold and the storey elevations are
dead inputs — two calls differing only in them return identical results. -/
theorem c8_dead_inputs (spaces : List Space) (storeys₁ storeys₂ : List Storey)
    (resOpt comOpt slopedOpt₁ slopedOpt₂ : Option Value) :
    check_room_heights { spaces := spaces, storeys := storeys₁ }
      { residential_min_height := resOpt, commercial_min_height := comOpt,
        sloped_min_height := slopedOpt₁ } =
    check_room_heights { spaces := spaces, storeys := storeys₂ }
      { residential_min_height := resOpt, commercial_min_height := comOpt,
        sloped_min_height := slopedOpt₂ } := rfl

/-- Claim C9: evaluation is deterministic — the result is a function of the
model value and the options alone (the embedding is a pure function of an
immutable model, so repeated evaluation returns identical sequences and the
model is never mutated). -/
theorem c9_deterministic (m₁ m₂ : Model) (o₁ o₂ : Options)
    (hm : m₁ = m₂) (ho : o₁ = o₂) :
    check_room_heights m₁ o₁ = check_room_heights m₂ o₂ := by
  rw [hm, ho]

/-- Witness for C9: two evaluations of the same concrete model agree. -/
theorem c9_deterministic_witness :
    check_room_heights w6model {} = check_room_heights w6model {} :=
  c9_deterministic w6model w6model {} {} rfl rfl

/-- Claim C10: when the first qualifying "height" key's value is a boolean,
the checker accepts it as the discovered numeric height (True compares as 1,
False as 0) rather than treating the height as absent — so against
thresholds above 1 the record is a `fail`, not a `warning`. -/
theorem c10_boolean_height (gid : Option String) (lid : Nat)
    (nm lnm : Option String) (gname k : String) (b : Bool) (rest : Props)
    (r c : Int) (hk : containsSub (lowerStr k) "height" = true)
    (hr : 1 < r) (hc : 1 < c) :
    ∃ rec : Rec,
      evalSpace (Value.num r) (Value.num c)
        { globalId := gid, localId := lid, name := nm, longName := lnm,
          psets := [(gname, (k, Value.bool b) :: rest)] } = Except.ok rec ∧
      discoverHeight [(gname, (k, Value.bool b) :: rest)] =
        some (if b then 1 else 0) ∧
      rec.check_status = "fail" := by
  obtain ⟨pre, suf, hdata⟩ := reprProps_cons k (Value.bool b) rest
  have hser : containsSub (lowerStr (reprProps ((k, Value.bool b) :: rest)))
      "height" = true :=
    containsSub_mono _ k _ pre suf hdata hk
  have hdisc : discoverHeight [(gname, (k, Value.bool b) :: rest)] =
      some (if b then 1 else 0) := by
    simp [discoverHeight, groupHeight, hser, findHeightInGroup, hk,
      isNumericValue, valueToInt]
  refine ⟨_, evalSpace_num r c _, hdisc, ?_⟩
  simp only [hdisc]
  have hlt : ¬ ((if classifyResidential
      { globalId := gid, localId := lid, name := nm, longName := lnm,
        psets := [(gname, (k, Value.bool b) :: rest)] } then r else c) ≤
        (if b then (1 : Int) else 0)) := by
    cases classifyResidential
        { globalId := gid, localId := lid, name := nm, longName := lnm,
          psets := [(gname, (k, Value.bool b) :: rest)] } <;>
      cases b <;> simp <;> omega
  simp [hlt]

/-- Witness for C10: a `True` under a height key gives height 1 and a fail
verdict against the default thresholds. -/
theorem c10_boolean_height_witness :
    ∃ rec : Rec,
      evalSpace (Value.num 2700) (Value.num 2800)
        { globalId := none, localId := 3, name := some "Office", longName := none,
          psets := [("P", [("HasCeilingHeight", Value.bool true)])] } = Except.ok rec ∧
      discoverHeight [("P", [("HasCeilingHeight", Value.bool true)])] = some 1 ∧
      rec.check_status = "fail" :=
  c10_boolean_height none 3 (some "Office") none "P" "HasCeilingHeight" true []
    2700 2800 (by decide) (by decide) (by decide)

end RoomHeights
